import Mathlib

/-!
Verification development for the RAG stock-analyser repository.

Shallow embedding of the three source files:
  src/rag_chatbot/src/data_fetcher.py        (FinancialDataFetcher)
  src/rag_chatbot/src/document_processor.py  (DocumentProcessor)
  src/rag_chatbot/config.py                  (Config)

External effects (HTTP calls through yfinance / Finnhub / FMP, the file
system, environment variables) are modelled as explicit inputs: a record of
functions describing what the outside world returns for each request.  Python
numbers are modelled as Int; a Python value of None, and a dictionary key
that is absent, are both modelled as Option.none — every consumer in the
source reads these dictionaries through dict.get, for which the two cases
are observationally identical.  A Python function whose body can raise an
uncaught exception is modelled with Except; a function that catches all
exceptions internally is modelled as a total function.
-/

/-- Decides whether the first character list is a prefix of the second. -/
def charListPrefix : List Char → List Char → Bool
  | [], _ => true
  | _ :: _, [] => false
  | a :: as, b :: bs => a = b && charListPrefix as bs

/-- Decides whether the first character list occurs contiguously inside
the second. -/
def charListInfix (pat : List Char) : List Char → Bool
  | [] => charListPrefix pat []
  | b :: bs => charListPrefix pat (b :: bs) || charListInfix pat bs

/-- Outcome of one interaction with the outside world: either the value the
library call produced, or an exception (network failure, non-2xx status via
raise_for_status, malformed JSON, PyPDF2 errors, ...) carrying its message. -/
inductive FetchOutcome (α : Type) where
  | ok (val : α)
  | exn (msg : String)
deriving DecidableEq, Repr

/-- Python truthiness of a credential read from the environment:
None and the empty string are falsy, any other string is truthy.
This models the source's checks of the form: if not Config.X_API_KEY. -/
def truthyKey : Option String → Bool
  | none => false
  | some s => !s.isEmpty

/-- Rendering of a possibly-None string inside a Python f-string:
None renders as the text None. -/
def pyStrOpt : Option String → String
  | some s => s
  | none => "None"

/-- Rendering of dict.get(key, defaultNA) inside an f-string without a
format spec: the number itself, or the N/A default when absent. -/
def optNA : Option Int → String
  | some n => toString n
  | none => "N/A"

/-- Models the Python format spec :.2f applied to a number that the
embedding represents as an integer. -/
def fmt2 (n : Int) : String := toString n ++ ".00"

/-- Helper for thousands grouping: works on the reversed digit list,
inserting a comma after every third digit. -/
def commaGroupRev : List Char → List Char
  | a :: b :: c :: d :: rest => a :: b :: c :: ',' :: commaGroupRev (d :: rest)
  | l => l

/-- Models the Python format specs :, and :,.0f (thousands separators). -/
def fmtComma (n : Int) : String :=
  let digits := toString n.natAbs
  let grouped := String.mk ((commaGroupRev digits.data.reverse).reverse)
  if n < 0 then "-" ++ grouped else grouped

/-- Abstract, injective rendering of datetime.fromtimestamp(n).isoformat().
The exact calendar arithmetic is irrelevant to every claim; only the fact
that a string is produced from the epoch value matters. -/
def isoFromTimestamp (n : Int) : String := "fromtimestamp(" ++ toString n ++ ")"

/-! ## Data model: canonical quote record (data_fetcher.py)

One structure holds every key any of the three quote adapters writes.  A
field a given adapter does not write defaults to none, which matches the
absence of that key in the Python dictionary under dict.get semantics.
Field names follow the source's dictionary keys; 52_week_high cannot start
with a digit in Lean, so those keys are spelled week52_high and week52_low,
and the key named open is spelled openPrice (open is a Lean keyword). -/

structure QuoteFields where
  ticker : String
  current_price : Option Int := none
  previous_close : Option Int := none
  openPrice : Option Int := none
  day_high : Option Int := none
  day_low : Option Int := none
  volume : Option Int := none
  avg_volume : Option Int := none
  market_cap : Option Int := none
  pe_ratio : Option Int := none
  forward_pe : Option Int := none
  dividend_yield : Option Int := none
  beta : Option Int := none
  week52_high : Option Int := none
  week52_low : Option Int := none
  day50_avg : Option Int := none
  day200_avg : Option Int := none
  change : Option Int := none
  percent_change : Option Int := none
  high : Option Int := none
  low : Option Int := none
  pe : Option Int := none
  eps : Option Int := none
  timestamp : String := ""
  source : String := ""
deriving DecidableEq, Repr

/-- A quote dictionary is either a success record (no error key) or an
error record of the shape with a single error key carrying the reason. -/
inductive Quote where
  | success (fields : QuoteFields)
  | error (reason : String)
deriving DecidableEq, Repr

/-- Models the Python membership test: "error" in quote. -/
def Quote.isError : Quote → Bool
  | .success _ => false
  | .error _ => true

/-- Models quote.get applied to the volume key: the stored value of a
success record, or None on an error record. -/
def Quote.volumeField : Quote → Option Int
  | .success f => f.volume
  | .error _ => none

/-- Keys of the yfinance Ticker.info dictionary that get_stock_quote and
get_company_info read (data_fetcher.py lines 43-62 and 104-115). -/
structure YfInfo where
  currentPrice : Option Int := none
  previousClose : Option Int := none
  openPrice : Option Int := none
  dayHigh : Option Int := none
  dayLow : Option Int := none
  volume : Option Int := none
  averageVolume : Option Int := none
  marketCap : Option Int := none
  trailingPE : Option Int := none
  forwardPE : Option Int := none
  dividendYield : Option Int := none
  beta : Option Int := none
  fiftyTwoWeekHigh : Option Int := none
  fiftyTwoWeekLow : Option Int := none
  fiftyDayAverage : Option Int := none
  twoHundredDayAverage : Option Int := none
deriving DecidableEq, Repr

/-- Result of the yfinance interaction in get_stock_quote: the info
dictionary plus the last Close of the one-day minute history, none when
that history frame is empty. -/
structure YfData where
  info : YfInfo
  lastClose : Option Int := none
deriving DecidableEq, Repr

/-- Keys of the yfinance info dictionary that get_company_info reads. -/
structure CompanyJson where
  longName : Option String := none
  sector : Option String := none
  industry : Option String := none
  longBusinessSummary : Option String := none
  website : Option String := none
  fullTimeEmployees : Option Int := none
  city : Option String := none
  state : Option String := none
  country : Option String := none
  founded : Option String := none
  exchange : Option String := none
  currency : Option String := none
deriving DecidableEq, Repr

/-- Canonical company profile produced by get_company_info. -/
structure CompanyFields where
  ticker : String
  company_name : Option String := none
  sector : Option String := none
  industry : Option String := none
  description : Option String := none
  website : Option String := none
  employees : Option Int := none
  headquarters : String := ""
  founded : Option String := none
  exchange : Option String := none
  currency : Option String := none
deriving DecidableEq, Repr

/-- A company dictionary: success record or error record. -/
inductive Company where
  | success (fields : CompanyFields)
  | error (reason : String)
deriving DecidableEq, Repr

/-- Models company.get(key, default) for string-valued keys: an error
record holds no data keys, so get falls back to the default. -/
def Company.getStr (c : Company) (f : CompanyFields → Option String) : Option String :=
  match c with
  | .success fields => f fields
  | .error _ => none

/-- Parsed JSON body of the Finnhub /quote endpoint (keys c d dp h l o pc t). -/
structure FinnhubJson where
  c : Option Int := none
  d : Option Int := none
  dp : Option Int := none
  h : Option Int := none
  l : Option Int := none
  o : Option Int := none
  pc : Option Int := none
  t : Option Int := none
deriving DecidableEq, Repr

/-- One element of the FMP /quote response array. -/
structure FmpJson where
  price : Option Int := none
  change : Option Int := none
  changesPercentage : Option Int := none
  dayHigh : Option Int := none
  dayLow : Option Int := none
  openPrice : Option Int := none
  previousClose : Option Int := none
  volume : Option Int := none
  avgVolume : Option Int := none
  marketCap : Option Int := none
  pe : Option Int := none
  eps : Option Int := none
deriving DecidableEq, Repr

/-- One element of the Finnhub company-news response array. -/
structure NewsJson where
  headline : Option String := none
  summary : Option String := none
  source : Option String := none
  url : Option String := none
  datetime : Option Int := none
deriving DecidableEq, Repr

/-- Canonical news item built by get_company_news. -/
structure NewsItem where
  headline : Option String
  summary : Option String
  source : Option String
  url : Option String
  datetime : String
deriving DecidableEq, Repr

/-- The outside world as observed by FinancialDataFetcher during one run:
what each external endpoint returns for each request, and the current
wall-clock time as rendered by datetime.now().isoformat().  The Finnhub
news function also receives days_back, since the requested date window is
derived from it. -/
structure World where
  yf : String → FetchOutcome YfData
  companyInfo : String → FetchOutcome CompanyJson
  finnhubQuote : String → FetchOutcome FinnhubJson
  finnhubNews : String → Nat → FetchOutcome (List NewsJson)
  fmpQuote : String → FetchOutcome (List FmpJson)
  now : String

/-- Modelled from the spec: the configuration collaborator consumed by
data_fetcher.py.  The module it names (rag_chatbot.src.config, the
loading of which is commented out at data_fetcher.py line 9) is not among the provided
source files; the spec states that the configuration supplies two optional
market-data provider keys whose absence silently disables the
corresponding adapter.  Modelled as the two optional credential strings. -/
structure Config where
  FINNHUB_API_KEY : Option String := none
  FMP_API_KEY : Option String := none
deriving DecidableEq, Repr

/-! ## Provider adapters (data_fetcher.py) -/

/-- Embedding of FinancialDataFetcher.get_stock_quote (lines 27-67).
The whole try body is driven by the yfinance outcome; any exception is
caught and rendered as an error record.  The keys change and
percent_change are never written by this adapter. -/
def get_stock_quote (w : World) (ticker : String) : Quote :=
  match w.yf ticker with
  | .exn e => .error ("Failed to fetch data for " ++ ticker ++ ": " ++ e)
  | .ok d =>
      let current_price : Option Int :=
        match d.lastClose with
        | some c => some c
        | none => d.info.currentPrice
      .success {
        ticker := ticker.toUpper
        current_price := current_price
        previous_close := d.info.previousClose
        openPrice := d.info.openPrice
        day_high := d.info.dayHigh
        day_low := d.info.dayLow
        volume := d.info.volume
        avg_volume := d.info.averageVolume
        market_cap := d.info.marketCap
        pe_ratio := d.info.trailingPE
        forward_pe := d.info.forwardPE
        dividend_yield := d.info.dividendYield
        beta := d.info.beta
        week52_high := d.info.fiftyTwoWeekHigh
        week52_low := d.info.fiftyTwoWeekLow
        day50_avg := d.info.fiftyDayAverage
        day200_avg := d.info.twoHundredDayAverage
        timestamp := w.now
        source := "Yahoo Finance" }

/-- Strips the characters comma and space from both ends of a string,
modelling the Python call str.strip(some chars) used for headquarters. -/
def stripCommaSpace (s : String) : String :=
  let isStripped := fun (ch : Char) => ch = ',' || ch = ' '
  let cs := s.data.dropWhile isStripped
  String.mk ((cs.reverse.dropWhile isStripped).reverse)

/-- Embedding of FinancialDataFetcher.get_company_info (lines 90-119). -/
def get_company_info (w : World) (ticker : String) : Company :=
  match w.companyInfo ticker with
  | .exn e => .error ("Failed to fetch company info: " ++ e)
  | .ok j =>
      .success {
        ticker := ticker.toUpper
        company_name := j.longName
        sector := j.sector
        industry := j.industry
        description := j.longBusinessSummary
        website := j.website
        employees := j.fullTimeEmployees
        headquarters :=
          stripCommaSpace ((j.city.getD "") ++ ", " ++ (j.state.getD "") ++ ", " ++ (j.country.getD ""))
        founded := j.founded
        exchange := j.exchange
        currency := j.currency }

/-- Embedding of FinancialDataFetcher.get_finnhub_quote (lines 148-180).
The credential check precedes the try block; every failure of the HTTP
interaction (network error, raise_for_status on a non-2xx response,
malformed JSON) is an exception caught by the handler at line 179. -/
def get_finnhub_quote (cfg : Config) (w : World) (ticker : String) : Quote :=
  if !truthyKey cfg.FINNHUB_API_KEY then .error "Finnhub API key not configured"
  else
    match w.finnhubQuote ticker with
    | .exn e => .error ("Finnhub API error: " ++ e)
    | .ok data =>
        .success {
          ticker := ticker.toUpper
          current_price := data.c
          change := data.d
          percent_change := data.dp
          high := data.h
          low := data.l
          openPrice := data.o
          previous_close := data.pc
          timestamp := isoFromTimestamp (data.t.getD 0)
          source := "Finnhub" }

/-- Conversion of one Finnhub news JSON object into a News Item
(data_fetcher.py lines 208-214). -/
def newsFromJson (item : NewsJson) : NewsItem :=
  { headline := item.headline
    summary := item.summary
    source := item.source
    url := item.url
    datetime := isoFromTimestamp (item.datetime.getD 0) }

/-- Embedding of FinancialDataFetcher.get_company_news (lines 182-219).
Unconfigured credential and any exception both yield the empty list; a
successful response is truncated to the first 10 items in provider-return
order. -/
def get_company_news (cfg : Config) (w : World) (ticker : String) (days_back : Nat) : List NewsItem :=
  if !truthyKey cfg.FINNHUB_API_KEY then []
  else
    match w.finnhubNews ticker days_back with
    | .exn _ => []
    | .ok news => (news.take 10).map newsFromJson

/-- Embedding of FinancialDataFetcher.get_fmp_quote (lines 223-261).
The response body is a JSON array; an empty array is reported as the
error record No data returned, otherwise the first element is read. -/
def get_fmp_quote (cfg : Config) (w : World) (ticker : String) : Quote :=
  if !truthyKey cfg.FMP_API_KEY then .error "FMP API key not configured"
  else
    match w.fmpQuote ticker with
    | .exn e => .error ("FMP API error: " ++ e)
    | .ok [] => .error "No data returned"
    | .ok (q :: _) =>
        .success {
          ticker := ticker.toUpper
          current_price := q.price
          change := q.change
          percent_change := q.changesPercentage
          day_high := q.dayHigh
          day_low := q.dayLow
          openPrice := q.openPrice
          previous_close := q.previousClose
          volume := q.volume
          avg_volume := q.avgVolume
          market_cap := q.marketCap
          pe := q.pe
          eps := q.eps
          timestamp := w.now
          source := "Financial Modeling Prep" }

/-! ## Quote aggregator (data_fetcher.py lines 309-336) -/

/-- Tag for each quote adapter the aggregator can invoke, in priority
order: the keyless primary, then the two key-gated secondaries. -/
inductive Adapter where
  | yahoo
  | finnhub
  | fmp
deriving DecidableEq, Repr

/-- Shared tail of the fallback chain (data_fetcher.py lines 330-336):
the FMP step, gated on its credential, followed by the aggregate error
return.  Factored out because both the taken and the not-taken Finnhub
branch fall through to this same code.  The second component of the
result is the instrumentation: the list of adapters invoked so far. -/
def fmpStep (cfg : Config) (w : World) (ticker : String) (calls : List Adapter) :
    Quote × List Adapter :=
  if truthyKey cfg.FMP_API_KEY then
    let fmp_quote := get_fmp_quote cfg w ticker
    if fmp_quote.isError = false then (fmp_quote, calls ++ [Adapter.fmp])
    else (.error ("Unable to fetch quote for " ++ ticker ++ " from any source"),
          calls ++ [Adapter.fmp])
  else (.error ("Unable to fetch quote for " ++ ticker ++ " from any source"), calls)

/-- Embedding of FinancialDataFetcher.get_comprehensive_quote
(lines 309-336), instrumented with the list of adapters invoked:
try Yahoo Finance first and return its record immediately if it has no
error key; otherwise try Finnhub when its key is configured; otherwise
try FMP when its key is configured; otherwise return the aggregate error
record naming the ticker. -/
def get_comprehensive_quoteT (cfg : Config) (w : World) (ticker : String) :
    Quote × List Adapter :=
  let yf_quote := get_stock_quote w ticker
  if yf_quote.isError = false then (yf_quote, [Adapter.yahoo])
  else
    if truthyKey cfg.FINNHUB_API_KEY then
      let finnhub_quote := get_finnhub_quote cfg w ticker
      if finnhub_quote.isError = false then
        (finnhub_quote, [Adapter.yahoo, Adapter.finnhub])
      else fmpStep cfg w ticker [Adapter.yahoo, Adapter.finnhub]
    else fmpStep cfg w ticker [Adapter.yahoo]

/-- The quote returned by get_comprehensive_quote, forgetting the
instrumentation. -/
def get_comprehensive_quote (cfg : Config) (w : World) (ticker : String) : Quote :=
  (get_comprehensive_quoteT cfg w ticker).fst

/-! ## Context formatter (data_fetcher.py lines 338-395) -/

/-- Embedding of the day-range entry of the context_parts list
(line 367).  The condition is Python truthiness of day_low; when the
render branch is taken the format spec :.2f is applied to day_high as
well, and a missing day_high is a string or None there, so the f-string
itself raises.  This is the only entry of the list whose construction
can raise. -/
def dayRangeLine (q : QuoteFields) : Except String String :=
  match q.day_low with
  | none => .ok ""
  | some lo =>
      if lo = 0 then .ok ""
      else
        match q.day_high with
        | some hi => .ok ("  Day Range: $" ++ fmt2 lo ++ " - $" ++ fmt2 hi)
        | none => .error "unsupported format string passed to NoneType"

/-- Embedding of the numbered news lines appended to the context
(data_fetcher.py lines 392-393): at most the first 5 news items, numbered
from 1, each as headline followed by the provider in parentheses. -/
def newsContextLines (news : List NewsItem) : List String :=
  (news.take 5).enum.map
    (fun it => "  " ++ toString (it.fst + 1) ++ ". " ++ pyStrOpt it.snd.headline
      ++ " (" ++ pyStrOpt it.snd.source ++ ")")

/-- Embedding of the description truncation (line 381): the first 400
characters with an ellipsis marker when longer than 400. -/
def truncateDescription (s : String) : String :=
  if s.length > 400 then s.take 400 ++ "..." else s

/-- Embedding of FinancialDataFetcher.format_for_context (lines 338-395).
An error record from the aggregator short-circuits into the one-line
failure message.  Otherwise the context_parts list is assembled: entries
guarded by Python truthiness of the underlying field collapse to the
empty string when the field is absent or zero, except the price entry
which renders a placeholder line.  The result is the parts joined with
newlines; an exception raised while building the parts propagates. -/
def format_for_context (cfg : Config) (w : World) (ticker : String)
    (include_news : Bool) : Except String String :=
  let quote := get_comprehensive_quote cfg w ticker
  let company := get_company_info w ticker
  match quote with
  | .error e => .ok ("Unable to retrieve real-time data for " ++ ticker ++ ": " ++ e)
  | .success q =>
      match dayRangeLine q with
      | .error exnMsg => .error exnMsg
      | .ok dayLine =>
          let priceLine :=
            match q.current_price with
            | some n => if n = 0 then "  Price: N/A" else "  Price: $" ++ fmt2 n
            | none => "  Price: N/A"
          let changeLine :=
            match q.change with
            | some n =>
                if n = 0 then ""
                else "  Change: " ++ toString n ++ " (" ++ optNA q.percent_change ++ "%)"
            | none => ""
          let volumeLine :=
            match q.volume with
            | some n => if n = 0 then "" else "  Volume: " ++ fmtComma n
            | none => ""
          let marketCapLine :=
            match q.market_cap with
            | some n => if n = 0 then "" else "  Market Cap: $" ++ fmtComma n
            | none => ""
          let peLine :=
            match q.pe_ratio with
            | some n => if n = 0 then "" else "  P/E Ratio: " ++ fmt2 n
            | none => ""
          let weekRangeLine :=
            match q.week52_low with
            | some n =>
                if n = 0 then ""
                else "  52-Week Range: $" ++ toString n ++ " - $" ++ optNA q.week52_high
            | none => ""
          let context_parts : List String := [
            "=== REAL-TIME DATA FOR " ++ ticker ++ " ===",
            "Retrieved: " ++ q.timestamp,
            "Source: " ++ q.source,
            "",
            "Company: " ++ (company.getStr (fun cf => cf.company_name)).getD "N/A",
            "Sector: " ++ (company.getStr (fun cf => cf.sector)).getD "N/A"
              ++ " | Industry: " ++ (company.getStr (fun cf => cf.industry)).getD "N/A",
            "",
            "CURRENT TRADING DATA:",
            priceLine,
            changeLine,
            dayLine,
            volumeLine,
            "",
            "KEY METRICS:",
            marketCapLine,
            peLine,
            weekRangeLine]
          let withOverview :=
            match company.getStr (fun cf => cf.description) with
            | some s =>
                if s.isEmpty then context_parts
                else context_parts ++ ["", "COMPANY OVERVIEW:", truncateDescription s]
            | none => context_parts
          let withNews :=
            if include_news && truthyKey cfg.FINNHUB_API_KEY then
              let news := get_company_news cfg w ticker 7
              if news.isEmpty then withOverview
              else withOverview ++ ["", "RECENT NEWS:"] ++ newsContextLines news
            else withOverview
          .ok (String.intercalate "\n" withNews)

/-! ## Market overview (data_fetcher.py lines 397-421) -/

/-- One value of the overview mapping: the three keys written at
lines 413-417, each read from the Yahoo quote record through dict.get. -/
structure OverviewEntry where
  price : Option Int
  change : Option Int
  change_percent : Option Int
deriving DecidableEq, Repr

/-- The fixed set of market indices iterated by get_market_overview
(lines 401-406), in insertion order. -/
def marketIndices : List (String × String) :=
  [("S&P 500", "^GSPC"), ("Dow Jones", "^DJI"), ("NASDAQ", "^IXIC"),
   ("Russell 2000", "^RUT")]

/-- Embedding of FinancialDataFetcher.get_market_overview
(lines 397-421): each index is fetched through the keyless primary
adapter; an error record (and, through the bare except, any raise) skips
that index, a success record contributes one entry.  Dictionary insertion
order is modelled by the list order. -/
def get_market_overview (w : World) : List (String × OverviewEntry) :=
  marketIndices.filterMap
    (fun idx =>
      match get_stock_quote w idx.snd with
      | .success q =>
          some (idx.fst,
            { price := q.current_price
              change := q.change
              change_percent := q.percent_change })
      | .error _ => none)

/-! ## Document processor (document_processor.py) -/

/-- The file system as observed by DocumentProcessor: what PyPDF2 yields
for each path (the per-page extracted texts, or an exception), what
open/read yields for each text file, and the glob traversal listing of
the processed directory together with the is_file test. -/
structure FileSys where
  pdfPages : String → FetchOutcome (List String)
  txtRead : String → FetchOutcome String
  listing : List String
  isFile : String → Bool

/-- Splits a character list on a separator character; always returns at
least one (possibly empty) group. -/
def splitOnChar (sep : Char) : List Char → List (List Char)
  | [] => [[]]
  | c :: rest =>
      match splitOnChar sep rest with
      | [] => [[]]
      | grp :: gs => if c = sep then [] :: grp :: gs else (c :: grp) :: gs

/-- Final path component, modelling pathlib Path(p).name. -/
def pathName (p : String) : String := String.mk ((splitOnChar '/' p.data).getLastD [])

/-- Character-wise ASCII lowercasing, modelling str.lower(). -/
def strToLower (s : String) : String := String.mk (s.data.map Char.toLower)

/-- Index of the last dot in a character list, or none. -/
def lastDotIdx (cs : List Char) : Option Nat :=
  ((cs.enum.filter (fun ic => ic.snd = '.')).map (fun ic => ic.fst)).getLast?

/-- Extension of the final path component, modelling pathlib
Path(p).suffix: the substring from the last dot of the name, provided
that dot is neither the leading nor the trailing character. -/
def pathSuffix (p : String) : String :=
  let n := pathName p
  match lastDotIdx n.data with
  | some i => if 0 < i ∧ i < n.data.length - 1 then String.mk (n.data.drop i) else ""
  | none => ""

/-- Embedding of DocumentProcessor.extract_text_from_pdf (lines 27-48):
each page's extracted text followed by a newline, concatenated; any
exception is caught and yields the empty string. -/
def extract_text_from_pdf (fs : FileSys) (pdf_path : String) : String :=
  match fs.pdfPages pdf_path with
  | .ok pages => String.join (pages.map (fun page => page ++ "\n"))
  | .exn _ => ""

/-- Embedding of DocumentProcessor.read_text_file (lines 50-65): the file
content, or the empty string when reading raises. -/
def read_text_file (fs : FileSys) (file_path : String) : String :=
  match fs.txtRead file_path with
  | .ok content => content
  | .exn _ => ""

/-- Metadata attached to each produced chunk
(document_processor.py lines 100-105). -/
structure ChunkMeta where
  source : String
  chunk_id : Nat
  total_chunks : Nat
  file_path : String
deriving DecidableEq, Repr

/-- One produced document chunk (content plus metadata). -/
structure DocChunk where
  content : String
  metadata : ChunkMeta
deriving DecidableEq, Repr

/-- Embedding of the documents loop of process_document
(document_processor.py lines 96-107): each chunk paired with its 0-based
enumerate index and the total chunk count. -/
def mkChunkDocs (filename file_path : String) (chunks : List String) : List DocChunk :=
  chunks.enum.map
    (fun ic =>
      { content := ic.snd
        metadata :=
          { source := filename
            chunk_id := ic.fst
            total_chunks := chunks.length
            file_path := file_path } })

/-- Embedding of DocumentProcessor.process_document (lines 67-108),
parameterised by the text splitter (the langchain
RecursiveCharacterTextSplitter instance, an external collaborator):
dispatch on the lowercased suffix, an unsupported suffix or an empty
extraction result yields the empty chunk list, otherwise each chunk of
the split is paired with its 0-based index and the total count. -/
def process_document (fs : FileSys) (split_text : String → List String)
    (file_path : String) : List DocChunk :=
  let file_extension := strToLower (pathSuffix file_path)
  let filename := pathName file_path
  let extracted : Option String :=
    if file_extension = ".pdf" then some (extract_text_from_pdf fs file_path)
    else if file_extension = ".txt" then some (read_text_file fs file_path)
    else none
  match extracted with
  | none => []
  | some text =>
      if text = "" then []
      else mkChunkDocs filename file_path (split_text text)

/-- Embedding of DocumentProcessor.process_directory (lines 110-132): the
glob traversal listing is filtered to regular files with a supported
suffix, and the per-file chunk lists are concatenated in traversal
order. -/
def process_directory (fs : FileSys) (split_text : String → List String) :
    List DocChunk :=
  (fs.listing.filter
      (fun p => fs.isFile p && [".pdf", ".txt"].contains (strToLower (pathSuffix p)))).flatMap
    (fun p => process_document fs split_text p)

/-! ## Configuration module (config.py) -/

/-- The process environment as read by os.getenv. -/
structure Env where
  getenv : String → Option String

/-- The Config class attributes of src/rag_chatbot/config.py (lines 4-26).
Note the attribute spelling FINHUB_API_KEY used by this file.  The
numeric and model-name constants are not read by any claim and are kept
as the two chunking tunables below. -/
structure ConfigPy where
  OPENAI_API_KEY : Option String
  PINECONE_API_KEY : Option String
  FINHUB_API_KEY : Option String
  FMP_API_KEY : Option String
  PINECONE_ENVIRONMENT : String
  PINECONE_INDEX_NAME : String
deriving DecidableEq, Repr

/-- Chunk size constant of config.py line 22. -/
def CHUNK_SIZE : Nat := 1000

/-- Chunk overlap constant of config.py line 23. -/
def CHUNK_OVERLAP : Nat := 200

/-- Embedding of Config.validate (config.py lines 28-41): the two
mandatory credentials are collected, the falsy ones listed, and a single
ValueError naming all of them together is raised when any is missing;
otherwise the call returns True.  The market-data keys are not in the
required dictionary. -/
def ConfigPy.validate (c : ConfigPy) : Except String Bool :=
  let required : List (String × Option String) :=
    [("OPENAI_API_KEY", c.OPENAI_API_KEY), ("PINECONE_API_KEY", c.PINECONE_API_KEY)]
  let missing := (required.filter (fun kv => !truthyKey kv.snd)).map (fun kv => kv.fst)
  if !missing.isEmpty then
    .error ("Missing required API keys: " ++ String.intercalate ", " missing)
  else
    .ok true

/-- Embedding of importing the config.py module: the class body reads the
environment (lines 5-11), and the final statement of the module
(line 42) is the bare attribute access Config.validate with no call
parentheses — the method object is evaluated and discarded, so no
validation is executed and the import cannot raise. -/
def configModuleImport (env : Env) : Except String ConfigPy :=
  let c : ConfigPy := {
    OPENAI_API_KEY := env.getenv "OPENAI_API_KEY"
    PINECONE_API_KEY := env.getenv "PINECONE_KEY"
    FINHUB_API_KEY := env.getenv "FINHUB_API_KEY"
    FMP_API_KEY := env.getenv "FMP_API_KEY"
    PINECONE_ENVIRONMENT := (env.getenv "PINECONE_ENVIRONMENT").getD "gcp-starter"
    PINECONE_INDEX_NAME := (env.getenv "PINECONE_INDEX_NAME").getD "financial-docs" }
  let _method_object := ConfigPy.validate
  Except.ok c

/-! ## Concrete fixtures used by the witness theorems -/

/-- Configuration with no market-data provider key present. -/
def cfgNone : Config := {}

/-- Configuration with both market-data provider keys present. -/
def cfgBoth : Config := { FINNHUB_API_KEY := some "fk", FMP_API_KEY := some "mk" }

/-- A yfinance response carrying a zero trading volume next to ordinary
nonzero metrics. -/
def yfDataSample : YfData :=
  { info :=
      { dayHigh := some 190
        dayLow := some 180
        volume := some 0
        marketCap := some 3000000000
        trailingPE := some 29
        fiftyTwoWeekHigh := some 199
        fiftyTwoWeekLow := some 164 }
    lastClose := some 187 }

/-- A company-info response with the fields the formatter renders. -/
def companyJsonSample : CompanyJson :=
  { longName := some "Apple Inc."
    sector := some "Technology"
    industry := some "Consumer Electronics" }

/-- A world in which the keyless primary succeeds (with the sample data
above) and every other endpoint is unreachable. -/
def wPrimaryOk : World :=
  { yf := fun _ => .ok yfDataSample
    companyInfo := fun _ => .ok companyJsonSample
    finnhubQuote := fun _ => .exn "connection refused"
    finnhubNews := fun _ _ => .exn "connection refused"
    fmpQuote := fun _ => .exn "connection refused"
    now := "2026-01-01T00:00:00" }

/-- A world in which every endpoint raises. -/
def wAllDown : World :=
  { yf := fun _ => .exn "HTTPError 503"
    companyInfo := fun _ => .exn "HTTPError 503"
    finnhubQuote := fun _ => .exn "HTTPError 503"
    finnhubNews := fun _ _ => .exn "HTTPError 503"
    fmpQuote := fun _ => .exn "HTTPError 503"
    now := "2026-01-01T00:00:00" }

/-- One Finnhub news object. -/
def newsJsonSample : NewsJson :=
  { headline := some "Quarterly results beat estimates"
    summary := some "summary"
    source := some "Newswire"
    url := some "https://example.com/article"
    datetime := some 1700000000 }

/-- A world in which the Finnhub news endpoint returns twelve items. -/
def wNewsRich : World :=
  { yf := fun _ => .ok yfDataSample
    companyInfo := fun _ => .ok companyJsonSample
    finnhubQuote := fun _ => .exn "connection refused"
    finnhubNews := fun _ _ => .ok (List.replicate 12 newsJsonSample)
    fmpQuote := fun _ => .exn "connection refused"
    now := "2026-01-01T00:00:00" }

/-- A small file system: one readable text file, one file with an
unsupported suffix, one text file whose read raises. -/
def fsSample : FileSys :=
  { pdfPages := fun _ => .exn "EOF marker not found"
    txtRead := fun p => if p = "docs/a.txt" then .ok "hello world" else .exn "PermissionError"
    listing := ["docs/a.txt", "docs/notes.md", "docs/broken.txt"]
    isFile := fun _ => true }

/-- A concrete splitter: one chunk of at most five characters, else two. -/
def splitSample (s : String) : List String :=
  if s.data.length ≤ 5 then [s] else [String.mk (s.data.take 5), String.mk (s.data.drop 5)]

/-- An environment with no variables set at all. -/
def envEmpty : Env := { getenv := fun _ => none }

/-- The Config attributes produced by importing config.py in the empty
environment. -/
def configPyEmpty : ConfigPy :=
  { OPENAI_API_KEY := none
    PINECONE_API_KEY := none
    FINHUB_API_KEY := none
    FMP_API_KEY := none
    PINECONE_ENVIRONMENT := "gcp-starter"
    PINECONE_INDEX_NAME := "financial-docs" }

/-- The context block format_for_context produces for AAPL in the world
wPrimaryOk, in which the Yahoo quote reports a volume of exactly zero:
the Volume entry of the trading-data block collapses to an empty line
even though the field is present, while the neighbouring entries with
nonzero values render normally. -/
def contextZeroVolume : String :=
  "=== REAL-TIME DATA FOR AAPL ===\nRetrieved: 2026-01-01T00:00:00\nSource: Yahoo Finance\n\nCompany: Apple Inc.\nSector: Technology | Industry: Consumer Electronics\n\nCURRENT TRADING DATA:\n  Price: $187.00\n\n  Day Range: $180.00 - $190.00\n\n\nKEY METRICS:\n  Market Cap: $3,000,000,000\n  P/E Ratio: 29.00\n  52-Week Range: $164 - $199"

/-! ## Helper lemmas -/

/-- Appending strings appends their character data. -/
theorem str_data_append (a b : String) : (a ++ b).data = a.data ++ b.data := by
  cases a with
  | mk la => cases b with
    | mk lb => rfl

/-- A string with a nonempty left part stays nonempty under append. -/
theorem str_append_ne_empty (a b : String) (h : a.length ≠ 0) : a ++ b ≠ "" := by
  intro hc
  apply h
  have hl := congrArg String.length hc
  rw [String.length_append] at hl
  have hz : String.length "" = 0 := rfl
  omega

/-- The success record built by get_stock_quote never carries the change
or percent_change keys. -/
theorem get_stock_quote_change_none (w : World) (t : String) (q : QuoteFields)
    (h : get_stock_quote w t = .success q) : q.change = none ∧ q.percent_change = none := by
  unfold get_stock_quote at h
  cases hyf : w.yf t with
  | exn e =>
      rw [hyf] at h
      exact absurd h (by simp)
  | ok d =>
      rw [hyf] at h
      simp only [Quote.success.injEq] at h
      subst h
      exact ⟨rfl, rfl⟩

/-- The chunk_id components of the documents loop output are exactly the
enumerate indices, 0 up to the length. -/
theorem mkChunkDocs_map_chunk_id (fn fp : String) (chunks : List String) :
    (mkChunkDocs fn fp chunks).map (fun d => d.metadata.chunk_id) =
      List.range (mkChunkDocs fn fp chunks).length := by
  unfold mkChunkDocs
  rw [List.map_map, List.length_map, List.enum_length]
  rw [show ((fun d => d.metadata.chunk_id) ∘
      (fun ic : Nat × String =>
        ({ content := ic.snd
           metadata :=
             { source := fn
               chunk_id := ic.fst
               total_chunks := chunks.length
               file_path := fp } } : DocChunk))) = Prod.fst from rfl]
  exact List.enum_map_fst chunks

/-- Every document produced by the documents loop carries the same
total_chunks value, the length of the produced list. -/
theorem mkChunkDocs_total (fn fp : String) (chunks : List String) :
    ∀ d ∈ mkChunkDocs fn fp chunks,
      d.metadata.total_chunks = (mkChunkDocs fn fp chunks).length := by
  intro d hd
  simp only [mkChunkDocs, List.mem_map] at hd
  obtain ⟨ic, _, rfl⟩ := hd
  simp [mkChunkDocs, List.enum_length]

/-- The output of process_document is either empty or the documents loop
applied to some chunk list. -/
theorem process_document_shape (fs : FileSys) (split_text : String → List String)
    (p : String) :
    process_document fs split_text p = [] ∨
    ∃ chunks, process_document fs split_text p = mkChunkDocs (pathName p) p chunks := by
  by_cases h1 : strToLower (pathSuffix p) = ".pdf"
  · by_cases h3 : extract_text_from_pdf fs p = ""
    · left
      simp [process_document, h1, h3]
    · right
      refine ⟨split_text (extract_text_from_pdf fs p), ?_⟩
      simp [process_document, h1, h3]
  · by_cases h2 : strToLower (pathSuffix p) = ".txt"
    · by_cases h3 : read_text_file fs p = ""
      · left
        simp [process_document, h1, h2, h3]
      · right
        refine ⟨split_text (read_text_file fs p), ?_⟩
        simp [process_document, h1, h2, h3]
    · left
      simp [process_document, h1, h2]

/-- Filtering before flat-mapping equals flat-mapping with an emptied
branch for the filtered-out elements. -/
theorem filter_flatMap_if {α β : Type} (l : List α) (pr : α → Bool) (g : α → List β) :
    (l.filter pr).flatMap g = l.flatMap (fun a => if pr a then g a else []) := by
  induction l with
  | nil => rfl
  | cons a t ih =>
      cases hp : pr a <;> simp [List.filter_cons, hp, ih]

/-! ## Claim theorems -/

/-- C1: get_comprehensive_quote tries the adapters in the fixed priority
order — the keyless primary always first, Finnhub only when its
credential is truthy and the primary failed, FMP only when its
credential is truthy, the primary failed, and a configured Finnhub also
failed — and short-circuits: when the primary returns a success record,
that exact record is returned and no secondary adapter is invoked. -/
theorem get_comprehensive_quote_priority_short_circuit
    (cfg : Config) (w : World) (ticker : String) :
    ((get_comprehensive_quoteT cfg w ticker).snd = [Adapter.yahoo] ∨
     (get_comprehensive_quoteT cfg w ticker).snd = [Adapter.yahoo, Adapter.finnhub] ∨
     (get_comprehensive_quoteT cfg w ticker).snd = [Adapter.yahoo, Adapter.fmp] ∨
     (get_comprehensive_quoteT cfg w ticker).snd =
       [Adapter.yahoo, Adapter.finnhub, Adapter.fmp])
    ∧ (Adapter.finnhub ∈ (get_comprehensive_quoteT cfg w ticker).snd →
        truthyKey cfg.FINNHUB_API_KEY = true ∧ (get_stock_quote w ticker).isError = true)
    ∧ (Adapter.fmp ∈ (get_comprehensive_quoteT cfg w ticker).snd →
        truthyKey cfg.FMP_API_KEY = true ∧ (get_stock_quote w ticker).isError = true ∧
        (truthyKey cfg.FINNHUB_API_KEY = true →
          (get_finnhub_quote cfg w ticker).isError = true))
    ∧ ((get_stock_quote w ticker).isError = false →
        get_comprehensive_quoteT cfg w ticker = (get_stock_quote w ticker, [Adapter.yahoo])) := by
  simp only [get_comprehensive_quoteT, fmpStep]
  cases hyf : (get_stock_quote w ticker).isError <;>
    cases hfin : truthyKey cfg.FINNHUB_API_KEY <;>
      cases hfmp : truthyKey cfg.FMP_API_KEY <;>
        cases hfq : (get_finnhub_quote cfg w ticker).isError <;>
          cases hmq : (get_fmp_quote cfg w ticker).isError <;>
            simp [hyf, hfin, hfmp, hfq, hmq]

/-- Witness for C1 at a concrete world whose primary source succeeds:
the record is returned as is and only the primary adapter appears in the
invocation trace. -/
theorem get_comprehensive_quote_priority_short_circuit_witness :
    (get_stock_quote wPrimaryOk "aapl").isError = false
    ∧ get_comprehensive_quoteT cfgBoth wPrimaryOk "aapl" =
        (get_stock_quote wPrimaryOk "aapl", [Adapter.yahoo]) :=
  ⟨by decide,
   (get_comprehensive_quote_priority_short_circuit cfgBoth wPrimaryOk "aapl").2.2.2
     (by decide)⟩

/-- C2: each key-gated secondary adapter converts every failure mode —
missing credential, and any exception of the HTTP interaction (network
failure, non-2xx status, malformed JSON), plus the empty FMP payload —
into an error record whose reason string is nonempty; the adapters are
total functions of the world, so no exception escapes their boundary. -/
theorem secondary_adapters_error_records (cfg : Config) (w : World) (ticker : String) :
    (truthyKey cfg.FINNHUB_API_KEY = false →
      get_finnhub_quote cfg w ticker = .error "Finnhub API key not configured")
    ∧ (∀ e, truthyKey cfg.FINNHUB_API_KEY = true → w.finnhubQuote ticker = .exn e →
        get_finnhub_quote cfg w ticker = .error ("Finnhub API error: " ++ e))
    ∧ (∀ r, get_finnhub_quote cfg w ticker = .error r → r ≠ "")
    ∧ (truthyKey cfg.FMP_API_KEY = false →
      get_fmp_quote cfg w ticker = .error "FMP API key not configured")
    ∧ (∀ e, truthyKey cfg.FMP_API_KEY = true → w.fmpQuote ticker = .exn e →
        get_fmp_quote cfg w ticker = .error ("FMP API error: " ++ e))
    ∧ (truthyKey cfg.FMP_API_KEY = true → w.fmpQuote ticker = .ok [] →
        get_fmp_quote cfg w ticker = .error "No data returned")
    ∧ (∀ r, get_fmp_quote cfg w ticker = .error r → r ≠ "") := by
  refine ⟨?_, ?_, ?_, ?_, ?_, ?_, ?_⟩
  · intro hk
    simp [get_finnhub_quote, hk]
  · intro e hk he
    simp [get_finnhub_quote, hk, he]
  · intro r hr
    unfold get_finnhub_quote at hr
    cases hk : truthyKey cfg.FINNHUB_API_KEY
    · simp [hk] at hr
      rcases hr with rfl
      decide
    · cases ho : w.finnhubQuote ticker with
      | exn e =>
          simp [hk, ho] at hr
          rcases hr with rfl
          exact str_append_ne_empty _ _ (by decide)
      | ok dd =>
          simp [hk, ho] at hr
  · intro hk
    simp [get_fmp_quote, hk]
  · intro e hk he
    simp [get_fmp_quote, hk, he]
  · intro hk he
    simp [get_fmp_quote, hk, he]
  · intro r hr
    unfold get_fmp_quote at hr
    cases hk : truthyKey cfg.FMP_API_KEY
    · simp [hk] at hr
      rcases hr with rfl
      decide
    · cases ho : w.fmpQuote ticker with
      | exn e =>
          simp [hk, ho] at hr
          rcases hr with rfl
          exact str_append_ne_empty _ _ (by decide)
      | ok l =>
          cases l with
          | nil =>
              simp [hk, ho] at hr
              rcases hr with rfl
              decide
          | cons q rest =>
              simp [hk, ho] at hr

/-- Witness for C2: with no credential configured the missing-key error
record is produced; with a credential configured and the endpoint down,
the exception is converted into an error record; the reasons are
nonempty. -/
theorem secondary_adapters_error_records_witness :
    get_finnhub_quote cfgNone wAllDown "IBM" = .error "Finnhub API key not configured"
    ∧ get_finnhub_quote cfgBoth wAllDown "IBM" =
        .error ("Finnhub API error: " ++ "HTTPError 503")
    ∧ get_fmp_quote cfgNone wAllDown "IBM" = .error "FMP API key not configured"
    ∧ "Finnhub API key not configured" ≠ "" :=
  ⟨(secondary_adapters_error_records cfgNone wAllDown "IBM").1 (by decide),
   (secondary_adapters_error_records cfgBoth wAllDown "IBM").2.1 "HTTPError 503"
     (by decide) (by decide),
   (secondary_adapters_error_records cfgNone wAllDown "IBM").2.2.2.1 (by decide),
   (secondary_adapters_error_records cfgNone wAllDown "IBM").2.2.1
     "Finnhub API key not configured"
     ((secondary_adapters_error_records cfgNone wAllDown "IBM").1 (by decide))⟩

/-- C3: when the primary fails and every configured secondary fails (in
particular when both secondaries are unconfigured), get_comprehensive_quote
returns — being a total function, rather than raises — the aggregate
error record, whose reason string contains the ticker. -/
theorem get_comprehensive_quote_aggregate_error (cfg : Config) (w : World)
    (ticker : String)
    (hyf : (get_stock_quote w ticker).isError = true)
    (hfin : truthyKey cfg.FINNHUB_API_KEY = true →
      (get_finnhub_quote cfg w ticker).isError = true)
    (hfmp : truthyKey cfg.FMP_API_KEY = true →
      (get_fmp_quote cfg w ticker).isError = true) :
    get_comprehensive_quote cfg w ticker =
      .error ("Unable to fetch quote for " ++ ticker ++ " from any source")
    ∧ ∃ pre post,
        "Unable to fetch quote for " ++ ticker ++ " from any source" =
          pre ++ ticker ++ post := by
  refine ⟨?_, "Unable to fetch quote for ", " from any source", rfl⟩
  unfold get_comprehensive_quote
  simp only [get_comprehensive_quoteT, fmpStep]
  cases hfin2 : truthyKey cfg.FINNHUB_API_KEY with
  | false =>
      cases hfmp2 : truthyKey cfg.FMP_API_KEY with
      | false => simp [hyf, hfin2, hfmp2]
      | true => simp [hyf, hfin2, hfmp2, hfmp hfmp2]
  | true =>
      cases hfmp2 : truthyKey cfg.FMP_API_KEY with
      | false => simp [hyf, hfin2, hfmp2, hfin hfin2]
      | true => simp [hyf, hfin2, hfmp2, hfin hfin2, hfmp hfmp2]

/-- Witness for C3 at a concrete ticker with every endpoint down and no
secondary configured. -/
theorem get_comprehensive_quote_aggregate_error_witness :
    get_comprehensive_quote cfgNone wAllDown "NVDA" =
      .error ("Unable to fetch quote for " ++ "NVDA" ++ " from any source")
    ∧ ∃ pre post,
        "Unable to fetch quote for " ++ "NVDA" ++ " from any source" =
          pre ++ "NVDA" ++ post :=
  get_comprehensive_quote_aggregate_error cfgNone wAllDown "NVDA"
    (by decide) (by decide) (by decide)

/-- C4: whenever the aggregation returns an error record,
format_for_context returns the single failure line — the fixed prefix,
the literal ticker, and the aggregate reason — with no structured
sections: the output contains no newline at all (provided the ticker
itself contains none), whereas every structured block is a
newline-joined list of parts. -/
theorem format_for_context_failure_line (cfg : Config) (w : World) (ticker : String)
    (include_news : Bool)
    (h : (get_comprehensive_quote cfg w ticker).isError = true) :
    get_comprehensive_quote cfg w ticker =
      .error ("Unable to fetch quote for " ++ ticker ++ " from any source")
    ∧ format_for_context cfg w ticker include_news =
        .ok ("Unable to retrieve real-time data for " ++ ticker ++ ": " ++
          ("Unable to fetch quote for " ++ ticker ++ " from any source"))
    ∧ (Char.ofNat 10 ∉ ticker.data →
        Char.ofNat 10 ∉ ("Unable to retrieve real-time data for " ++ ticker ++ ": " ++
          ("Unable to fetch quote for " ++ ticker ++ " from any source")).data) := by
  have hagg : get_comprehensive_quote cfg w ticker =
      Quote.error ("Unable to fetch quote for " ++ ticker ++ " from any source") := by
    unfold get_comprehensive_quote at h ⊢
    simp only [get_comprehensive_quoteT, fmpStep] at h ⊢
    cases hyf : (get_stock_quote w ticker).isError <;>
      cases hfin : truthyKey cfg.FINNHUB_API_KEY <;>
        cases hfmp : truthyKey cfg.FMP_API_KEY <;>
          cases hfq : (get_finnhub_quote cfg w ticker).isError <;>
            cases hmq : (get_fmp_quote cfg w ticker).isError <;>
              simp_all [hyf, hfin, hfmp, hfq, hmq, Quote.isError]
  refine ⟨hagg, ?_, ?_⟩
  · simp [format_for_context, hagg]
  · intro hnl
    simp only [str_data_append, List.mem_append, not_or]
    refine ⟨⟨⟨by decide, hnl⟩, by decide⟩, ⟨by decide, hnl⟩, by decide⟩

/-- Witness for C4: with every endpoint down and no secondary configured,
the formatter returns the one-line failure message for TSLA, and that
message contains no newline. -/
theorem format_for_context_failure_line_witness :
    format_for_context cfgNone wAllDown "TSLA" true =
      .ok ("Unable to retrieve real-time data for " ++ "TSLA" ++ ": " ++
        ("Unable to fetch quote for " ++ "TSLA" ++ " from any source"))
    ∧ Char.ofNat 10 ∉ ("Unable to retrieve real-time data for " ++ "TSLA" ++ ": " ++
        ("Unable to fetch quote for " ++ "TSLA" ++ " from any source")).data :=
  ⟨(format_for_context_failure_line cfgNone wAllDown "TSLA" true (by decide)).2.1,
   (format_for_context_failure_line cfgNone wAllDown "TSLA" true (by decide)).2.2
     (by decide)⟩


set_option maxRecDepth 8192 in
/-- C5 counter-evidence: in a world whose Yahoo quote succeeds and
reports a trading volume of exactly zero, the aggregated success record
carries volume = 0, yet the formatted context contains no Volume line at
all — the truthiness guard at data_fetcher.py line 368 suppresses the
line for a legitimate zero exactly as it does for an absent field —
while neighbouring structured lines (the Day Range of the same block)
do render. -/
theorem format_volume_zero_suppressed :
    (get_comprehensive_quote cfgNone wPrimaryOk "AAPL").volumeField = some 0
    ∧ (get_comprehensive_quote cfgNone wPrimaryOk "AAPL").isError = false
    ∧ format_for_context cfgNone wPrimaryOk "AAPL" false = .ok contextZeroVolume
    ∧ charListInfix "Volume".data contextZeroVolume.data = false
    ∧ charListInfix "Day Range".data contextZeroVolume.data = true := by
  refine ⟨by decide, by decide, by rfl, by decide, by decide⟩

/-- C6: for every file whose processing yields a non-empty chunk list,
the chunk_id values are exactly the contiguous integers 0 up to
total minus one in order, and every chunk carries the same total_chunks
value, equal to the number of chunks actually produced. -/
theorem process_document_chunk_ids_contiguous (fs : FileSys)
    (split_text : String → List String) (p : String)
    (h : process_document fs split_text p ≠ []) :
    (process_document fs split_text p).map (fun d => d.metadata.chunk_id) =
      List.range (process_document fs split_text p).length
    ∧ ∀ d ∈ process_document fs split_text p,
        d.metadata.total_chunks = (process_document fs split_text p).length := by
  rcases process_document_shape fs split_text p with hsh | ⟨chunks, hsh⟩
  · exact absurd hsh h
  · rw [hsh]
    exact ⟨mkChunkDocs_map_chunk_id _ _ _, mkChunkDocs_total _ _ _⟩

/-- Witness for C6: the sample text file splits into two chunks with
chunk_id values 0 and 1 and total_chunks 2 on both. -/
theorem process_document_chunk_ids_contiguous_witness :
    (process_document fsSample splitSample "docs/a.txt").map
        (fun d => d.metadata.chunk_id) =
      List.range (process_document fsSample splitSample "docs/a.txt").length
    ∧ ∀ d ∈ process_document fsSample splitSample "docs/a.txt",
        d.metadata.total_chunks =
          (process_document fsSample splitSample "docs/a.txt").length :=
  process_document_chunk_ids_contiguous fsSample splitSample "docs/a.txt" (by decide)

/-- C7: a file with an unsupported suffix, and a supported file whose
extraction yields empty text (in particular one whose read raises),
produce the empty chunk sequence — process_document is total, so no
fault crosses the pipeline boundary — and process_directory is the
concatenation, in traversal order, of the per-file chunk sequences,
with non-selected files contributing zero chunks, so one file's failure
never aborts the walk. -/
theorem pipeline_skips_and_concatenates (fs : FileSys)
    (split_text : String → List String) :
    (∀ p, strToLower (pathSuffix p) ≠ ".pdf" → strToLower (pathSuffix p) ≠ ".txt" →
      process_document fs split_text p = [])
    ∧ (∀ p e, strToLower (pathSuffix p) = ".txt" → fs.txtRead p = .exn e →
        process_document fs split_text p = [])
    ∧ (∀ p e, strToLower (pathSuffix p) = ".pdf" → fs.pdfPages p = .exn e →
        process_document fs split_text p = [])
    ∧ process_directory fs split_text =
        fs.listing.flatMap
          (fun p =>
            if fs.isFile p && [".pdf", ".txt"].contains (strToLower (pathSuffix p))
            then process_document fs split_text p else []) := by
  refine ⟨?_, ?_, ?_, ?_⟩
  · intro p h1 h2
    simp [process_document, h1, h2]
  · intro p e h1 h2
    simp [process_document, read_text_file, h1, h2]
  · intro p e h1 h2
    simp [process_document, extract_text_from_pdf, h1, h2]
  · unfold process_directory
    exact filter_flatMap_if _ _ _

/-- Witness for C7: the markdown file and the unreadable text file both
contribute zero chunks, and the directory walk is the per-file
concatenation over the listing. -/
theorem pipeline_skips_and_concatenates_witness :
    process_document fsSample splitSample "docs/notes.md" = []
    ∧ process_document fsSample splitSample "docs/broken.txt" = []
    ∧ process_directory fsSample splitSample =
        fsSample.listing.flatMap
          (fun p =>
            if fsSample.isFile p && [".pdf", ".txt"].contains (strToLower (pathSuffix p))
            then process_document fsSample splitSample p else []) :=
  ⟨(pipeline_skips_and_concatenates fsSample splitSample).1 "docs/notes.md"
     (by decide) (by decide),
   (pipeline_skips_and_concatenates fsSample splitSample).2.1 "docs/broken.txt"
     "PermissionError" (by decide) (by decide),
   (pipeline_skips_and_concatenates fsSample splitSample).2.2.2⟩

/-- C8: get_company_news returns a plain list — empty when the provider
is unconfigured or the request raises, never an error object, and the
function is total so nothing is raised past it — equal on success to
the first 10 provider-order items converted to News Items, hence always
of length at most 10; and the formatter embeds at most 5 of those items
as numbered headline lines with provider attribution. -/
theorem company_news_bounds (cfg : Config) (w : World) (ticker : String)
    (days_back : Nat) :
    (truthyKey cfg.FINNHUB_API_KEY = false →
      get_company_news cfg w ticker days_back = [])
    ∧ (∀ e, w.finnhubNews ticker days_back = .exn e →
        get_company_news cfg w ticker days_back = [])
    ∧ (∀ items, truthyKey cfg.FINNHUB_API_KEY = true →
        w.finnhubNews ticker days_back = .ok items →
        get_company_news cfg w ticker days_back = (items.take 10).map newsFromJson)
    ∧ (get_company_news cfg w ticker days_back).length ≤ 10
    ∧ ∀ news : List NewsItem, (newsContextLines news).length ≤ 5 := by
  refine ⟨?_, ?_, ?_, ?_, ?_⟩
  · intro hk
    simp [get_company_news, hk]
  · intro e he
    unfold get_company_news
    cases hk : truthyKey cfg.FINNHUB_API_KEY <;> simp [hk, he]
  · intro items hk hok
    simp [get_company_news, hk, hok]
  · unfold get_company_news
    cases hk : truthyKey cfg.FINNHUB_API_KEY
    · simp
    · cases ho : w.finnhubNews ticker days_back with
      | exn e => simp [ho]
      | ok items =>
          simp only [Bool.not_true, Bool.false_eq_true, if_false, ho,
            List.length_map, List.length_take]
          omega
  · intro news
    simp only [newsContextLines, List.length_map, List.enum_length, List.length_take]
    omega

/-- Witness for C8: with the key configured and twelve items returned,
exactly the first ten are kept; with no key the list is empty; the
embedded numbered lines never exceed five. -/
theorem company_news_bounds_witness :
    get_company_news cfgBoth wNewsRich "AAPL" 7 =
      ((List.replicate 12 newsJsonSample).take 10).map newsFromJson
    ∧ (get_company_news cfgBoth wNewsRich "AAPL" 7).length ≤ 10
    ∧ get_company_news cfgNone wNewsRich "AAPL" 7 = []
    ∧ (newsContextLines (get_company_news cfgBoth wNewsRich "AAPL" 7)).length ≤ 5 :=
  ⟨(company_news_bounds cfgBoth wNewsRich "AAPL" 7).2.2.1
     (List.replicate 12 newsJsonSample) (by decide) (by decide),
   (company_news_bounds cfgBoth wNewsRich "AAPL" 7).2.2.2.1,
   (company_news_bounds cfgNone wNewsRich "AAPL" 7).1 (by decide),
   (company_news_bounds cfgBoth wNewsRich "AAPL" 7).2.2.2.2
     (get_company_news cfgBoth wNewsRich "AAPL" 7)⟩

/-- C9 counter-evidence: in an environment missing both mandatory
credentials, importing config.py succeeds without raising — the module's
final statement (line 42) evaluates the attribute Config.validate
without calling it, so no validation runs before any component —
although the validate method itself, when invoked, raises the single
aggregated error listing every missing mandatory key, succeeds when
both are present, and never requires the market-data provider keys. -/
theorem config_validate_never_invoked_at_import :
    configModuleImport envEmpty = Except.ok configPyEmpty
    ∧ ConfigPy.validate configPyEmpty =
        Except.error "Missing required API keys: OPENAI_API_KEY, PINECONE_API_KEY"
    ∧ ConfigPy.validate
        { configPyEmpty with
          OPENAI_API_KEY := some "sk-x", PINECONE_API_KEY := some "pc-x" } =
      Except.ok true := by
  refine ⟨by rfl, by rfl, by rfl⟩

/-- C10: every entry of the market overview has None for both change and
change_percent, because the keyless primary adapter never writes the
change or percent_change keys into its success records; only price can
carry a value. -/
theorem market_overview_change_always_none (w : World) :
    ∀ entry ∈ get_market_overview w,
      entry.snd.change = none ∧ entry.snd.change_percent = none := by
  intro entry hmem
  unfold get_market_overview at hmem
  rw [List.mem_filterMap] at hmem
  obtain ⟨idx, _, heq⟩ := hmem
  cases hq : get_stock_quote w idx.snd with
  | error r =>
      rw [hq] at heq
      simp at heq
  | success q =>
      rw [hq] at heq
      simp only [Option.some.injEq] at heq
      obtain ⟨hc, hp⟩ := get_stock_quote_change_none w idx.snd q hq
      subst heq
      exact ⟨hc, hp⟩

/-- Witness for C10: in the world whose Yahoo endpoint succeeds, the
overview holds an entry whose price is populated while change and
change_percent are None. -/
theorem market_overview_change_always_none_witness :
    ("S&P 500",
      ({ price := some 187, change := none, change_percent := none } : OverviewEntry))
        ∈ get_market_overview wPrimaryOk
    ∧ ({ price := some 187, change := none,
         change_percent := none } : OverviewEntry).change = none
    ∧ ({ price := some 187, change := none,
         change_percent := none } : OverviewEntry).change_percent = none :=
  ⟨by decide,
   market_overview_change_always_none wPrimaryOk
     ("S&P 500",
       ({ price := some 187, change := none, change_percent := none } : OverviewEntry))
     (by decide)⟩
